import Mathlib

/-!
Verification of the DNA-classifier HTTP service (Flask server `app.py` and
serverless handler `api/index.py`).

The Python sources are embedded shallowly:
* strings are Lean `String`s; Python `str.strip().upper()` becomes
  `pyStrip`/`pyUpper` over the character list;
* the k-mer tokenizer `get_kmers` is translated literally, including the
  Python `range(len(sequence)-k+1)` arithmetic (computed in `Int` so that a
  negative bound yields an empty range, as in Python);
* the CountVectorizer / LogisticRegression pair is external library code;
  it is modelled from the spec's contract (a count vector over a fixed
  vocabulary; a probability pair summing to 1);
* each HTTP handler becomes a pure function from the global server state and
  the request data to `(status, body)` together with the post-state.
-/

/-- Python `str.strip()`: drop whitespace from both ends (app.py line 190). -/
def pyStrip (s : String) : String :=
  String.mk (((s.toList.dropWhile Char.isWhitespace).reverse.dropWhile Char.isWhitespace).reverse)

/-- Python `str.upper()` on ASCII DNA strings (app.py line 190). -/
def pyUpper (s : String) : String :=
  String.mk (s.toList.map Char.toUpper)

/-- `all(base in set('ATGC') for base in sequence)` — app.py lines 199-200. -/
def validDNA (s : String) : Bool :=
  s.toList.all (fun c => c == 'A' || c == 'T' || c == 'G' || c == 'C')

/-- The list `[sequence[i:i+k] for i in range(len(sequence)-k+1)]` from
`get_kmers` (app.py line 31).  The range bound is computed in `Int`: in
Python a negative `len(sequence)-k+1` gives an empty range. -/
def kmerList (sequence : String) (k : Nat) : List String :=
  (List.range (Int.toNat (Int.ofNat sequence.length - Int.ofNat k + 1))).map
    (fun i => String.mk ((sequence.toList.drop i).take k))

/-- Python `" ".join(tokens)`. -/
def joinSpace : List String → String
  | [] => ""
  | [t] => t
  | t :: u :: rest => t ++ " " ++ joinSpace (u :: rest)

/-- `get_kmers(sequence, k)` — app.py lines 28-31 and api/index.py lines 23-26
(the two copies are textually identical). -/
def get_kmers (sequence : String) (k : Nat) : String :=
  joinSpace (kmerList sequence k)

/-- C1: for every sequence of length `L ≥ 3` and `k = 3`, `get_kmers` is the
space-join of the list of all `L - 2` windows of length 3, one per start
offset and in offset order.  (Determinism and freedom from side effects hold
by construction: `get_kmers` is a pure function.) -/
theorem c1_get_kmers_shape (s : String) (hL : 3 ≤ s.length) :
    (kmerList s 3).length = s.length - 2
    ∧ (∀ i (h : i < (kmerList s 3).length),
        (kmerList s 3).get ⟨i, h⟩ = String.mk ((s.toList.drop i).take 3))
    ∧ (∀ t ∈ kmerList s 3, t.length = 3)
    ∧ get_kmers s 3 = joinSpace (kmerList s 3) := by
  have hlen : (kmerList s 3).length = s.length - 2 := by
    simp only [kmerList, List.length_map, List.length_range, Int.ofNat_eq_coe]
    omega
  refine ⟨hlen, ?_, ?_, rfl⟩
  · intro i h
    simp only [kmerList, List.get_eq_getElem, List.getElem_map, List.getElem_range]
  · intro t ht
    simp only [kmerList, List.mem_map, List.mem_range, Int.ofNat_eq_coe] at ht
    obtain ⟨i, hi, rfl⟩ := ht
    have hmk : (String.mk ((s.toList.drop i).take 3)).length
        = ((s.toList.drop i).take 3).length := rfl
    have hchars : s.toList.length = s.length := rfl
    rw [hmk, List.length_take, List.length_drop, hchars]
    omega

/-- Split a character list on the space character (the tokenization relevant
to space-joined k-mer strings).  `splitOnSpace []` is `[[]]`, matching the
fact that splitting an empty document yields a single empty token. -/
def splitOnSpace : List Char → List (List Char)
  | [] => [[]]
  | c :: rest =>
    let r := splitOnSpace rest
    if c = ' ' then [] :: r
    else
      match r with
      | [] => [[c]]
      | t :: ts => (c :: t) :: ts

/-- Modelled from the spec: the CountVectorizer's tokenizer.  The library's
token pattern keeps lower-cased word tokens of length at least 2; on a
space-joined k-mer string this is exactly the list of non-trivial
space-separated tokens. -/
def cvTokenize (doc : String) : List String :=
  ((splitOnSpace doc.toList).map (fun l => String.mk (l.map Char.toLower))).filter
    (fun t => 2 ≤ t.length)

/-- Modelled from the spec: the fitted CountVectorizer, reduced to the data
the claims need — a vocabulary fixed at training time ("Feature vector:
sparse count vector indexed by a vocabulary fixed at training time; unseen
tokens are ignored at inference"). -/
structure Vectorizer where
  vocab : List String

/-- Modelled from the spec: `vectorizer.transform([doc])` produces the count
vector of the document's tokens over the fixed vocabulary; tokens outside the
vocabulary are ignored. -/
def Vectorizer.transform (v : Vectorizer) (doc : String) : List Nat :=
  v.vocab.map (fun w => (cvTokenize doc).count w)

/-- Modelled from the spec: the fitted binary classifier
(`LogisticRegression`).  Per the spec's vectorizer/classifier contract it
maps a feature vector to a 0/1 class and to a per-class probability pair
summing to 1 ("per-class probability pair summing to 1"). -/
structure Classifier where
  predict : List Nat → Nat
  predict_proba : List Nat → ℚ × ℚ
  predict01 : ∀ x, predict x = 0 ∨ predict x = 1
  proba_nonneg : ∀ x, 0 ≤ (predict_proba x).1 ∧ 0 ≤ (predict_proba x).2
  proba_sum : ∀ x, (predict_proba x).1 + (predict_proba x).2 = 1

/-- One entry of a batch_predict response (app.py lines 261-266). -/
structure BatchItem where
  sequence : String
  prediction : Nat
  prediction_label : String
  confidence : ℚ
deriving DecidableEq, Repr

/-- The JSON bodies the two front ends produce on the routes under study. -/
inductive Body where
  | err (error : String)
  | predOk (sequence : String) (prediction : Nat) (prediction_label : String)
      (confidence : ℚ) (non_coding : ℚ) (coding : ℚ)
  | batchOk (results : List BatchItem) (count : Nat)
  | health (model_trained : Bool) (message : Option String)
  | notFound
deriving DecidableEq, Repr

/-- The global mutable state shared by the routes: `model`, `vectorizer`,
`is_trained` (app.py lines 19-21, api/index.py lines 14-16). -/
structure ServerState where
  model : Option Classifier
  vectorizer : Option Vectorizer
  is_trained : Bool

/-- The request headers the code ever looks at (api/index.py lines 46-47):
the exact-cased dict keys 'X-Api-Key', 'x-api-key' and 'Authorization'. -/
structure Headers where
  xApiKeyMixed : Option String
  xApiKeyLower : Option String
  authorization : Option String

/-- The JSON request fields the POST routes read: `data.get('sequence','')`
and `data.get('sequences',[])`. -/
structure ReqData where
  sequence : Option String
  sequences : Option (List String)

/-- Python `max([a, b])` on the two probabilities (app.py line 217). -/
def pyMax (a b : ℚ) : ℚ :=
  if a < b then b else a

/-- `'Coding' if prediction == 1 else 'Non-Coding'` (app.py line 216). -/
def labelOf (prediction : Nat) : String :=
  if prediction = 1 then "Coding" else "Non-Coding"

/-- The Flask `/api/predict` route (app.py lines 177-230), as a function from
the global state and the request's `sequence` field (`none` when the JSON has
no such key) to `(status, body)` plus the post-state.  The route reads the
globals and never assigns them, so every branch returns `st` unchanged. -/
def flaskPredict (st : ServerState) (seqField : Option String) :
    (Nat × Body) × ServerState :=
  match st.model, st.vectorizer, st.is_trained with
  | some m, some v, true =>
    let sequence := pyUpper (pyStrip (seqField.getD ""))
    if sequence = "" then
      ((400, Body.err "Sequence is required"), st)
    else if validDNA sequence then
      let kmer_seq := get_kmers sequence 3
      let X := v.transform kmer_seq
      let prediction := m.predict X
      let probability := m.predict_proba X
      ((200, Body.predOk sequence prediction (labelOf prediction)
          (pyMax probability.1 probability.2) probability.1 probability.2), st)
    else
      ((400, Body.err "Invalid DNA sequence. Only A, T, G, C are allowed."), st)
  | _, _, _ =>
    ((400, Body.err "Model not trained. Please train the model first."), st)

/-- `handler.handle_predict` (api/index.py lines 142-208): identical to the
Flask route except for the model-absent branch, which is a 500 with a
different message. -/
def handlerPredict (st : ServerState) (seqField : Option String) :
    (Nat × Body) × ServerState :=
  match st.model, st.vectorizer, st.is_trained with
  | some m, some v, true =>
    let sequence := pyUpper (pyStrip (seqField.getD ""))
    if sequence = "" then
      ((400, Body.err "Sequence is required"), st)
    else if validDNA sequence then
      let kmer_seq := get_kmers sequence 3
      let X := v.transform kmer_seq
      let prediction := m.predict X
      let probability := m.predict_proba X
      ((200, Body.predOk sequence prediction (labelOf prediction)
          (pyMax probability.1 probability.2) probability.1 probability.2), st)
    else
      ((400, Body.err "Invalid DNA sequence. Only A, T, G, C are allowed."), st)
  | _, _, _ =>
    ((500, Body.err "Model not loaded. Please contact administrator."), st)

/-- The loop body of batch_predict (app.py lines 254-266, api/index.py lines
236-248; the two copies are textually identical): strip, uppercase,
tokenize, vectorize and predict one sequence, with no alphabet validation. -/
def batchItem (m : Classifier) (v : Vectorizer) (seq : String) : BatchItem :=
  let s := pyUpper (pyStrip seq)
  let kmer_seq := get_kmers s 3
  let X := v.transform kmer_seq
  let prediction := m.predict X
  let probability := m.predict_proba X
  ⟨s, prediction, labelOf prediction, pyMax probability.1 probability.2⟩

/-- The Flask `/api/batch_predict` route (app.py lines 232-278). -/
def flaskBatch (st : ServerState) (seqsField : Option (List String)) :
    (Nat × Body) × ServerState :=
  match st.model, st.vectorizer, st.is_trained with
  | some m, some v, true =>
    let sequences := seqsField.getD []
    if sequences.isEmpty then
      ((400, Body.err "Sequences array is required"), st)
    else
      let results := sequences.map (batchItem m v)
      ((200, Body.batchOk results results.length), st)
  | _, _, _ =>
    ((400, Body.err "Model not trained. Please train the model first."), st)

/-- `handler.handle_batch_predict` (api/index.py lines 210-266): identical to
the Flask route except for the model-absent branch (500, other message). -/
def handlerBatch (st : ServerState) (seqsField : Option (List String)) :
    (Nat × Body) × ServerState :=
  match st.model, st.vectorizer, st.is_trained with
  | some m, some v, true =>
    let sequences := seqsField.getD []
    if sequences.isEmpty then
      ((400, Body.err "Sequences array is required"), st)
    else
      let results := sequences.map (batchItem m v)
      ((200, Body.batchOk results results.length), st)
  | _, _, _ =>
    ((500, Body.err "Model not loaded. Please contact administrator."), st)

/-- The Flask `/api/health` route (app.py lines 113-119). -/
def flaskHealth (st : ServerState) : (Nat × Body) × ServerState :=
  ((200, Body.health st.is_trained none), st)

/-- The serverless GET `/api/health` response (api/index.py lines 68-78):
carries an extra `message` field. -/
def handlerHealthGet (st : ServerState) : (Nat × Body) × ServerState :=
  ((200, Body.health st.is_trained
      (some "API is running. Use X-API-Key header for authenticated endpoints.")), st)

/-- The serverless POST `/api/health` response (api/index.py lines 99-109). -/
def handlerHealthPost (st : ServerState) : (Nat × Body) × ServerState :=
  ((200, Body.health st.is_trained none), st)

/-- Python's `a or b` on strings: the empty string is falsy. -/
def pyOr (a b : String) : String :=
  if a = "" then b else a

/-- The character list of the pattern `'Bearer '`. -/
def bearerPat : List Char := "Bearer ".toList

/-- Fuelled left-to-right removal of every occurrence of `'Bearer '`,
mirroring Python's `str.replace('Bearer ', '')`.  The fuel is the input
length, which bounds the number of steps. -/
def replaceBearerAux : Nat → List Char → List Char
  | 0, l => l
  | _ + 1, [] => []
  | fuel + 1, c :: rest =>
    if (c :: rest).take 7 = bearerPat then
      replaceBearerAux fuel ((c :: rest).drop 7)
    else
      c :: replaceBearerAux fuel rest

/-- `'...'.replace('Bearer ', '')` — api/index.py line 47. -/
def replaceBearer (s : String) : String :=
  String.mk (replaceBearerAux s.toList.length s.toList)

/-- The api-key lookup of `check_api_key` (api/index.py lines 46-47):
`headers.get('X-Api-Key') or headers.get('x-api-key') or
headers.get('Authorization', '').replace('Bearer ', '')`, where a missing
header and an empty one are both falsy. -/
def extractApiKey (h : Headers) : String :=
  pyOr (h.xApiKeyMixed.getD "")
    (pyOr (h.xApiKeyLower.getD "")
      (replaceBearer (h.authorization.getD "")))

/-- `check_api_key` (api/index.py lines 44-56): `some` of the 401 response
when the key is missing or differs from the configured secret, `none` when
the key is accepted. -/
def check_api_key (apiKey : String) (h : Headers) : Option (Nat × Body) :=
  let k := extractApiKey h
  if k = "" ∨ k ≠ apiKey then
    some (401,
      Body.err "Invalid or missing API key. Please provide X-API-Key header or Bearer token.")
  else
    none

/-- `handler.do_POST` (api/index.py lines 84-140): health needs no auth;
every other path goes through `check_api_key` before being routed to
`handle_predict` / `handle_batch_predict` / 404. -/
def handlerPost (apiKey : String) (path : String) (h : Headers) (d : ReqData)
    (st : ServerState) : (Nat × Body) × ServerState :=
  if path = "/api/health" then handlerHealthPost st
  else
    match check_api_key apiKey h with
    | some e => (e, st)
    | none =>
      if path = "/api/predict" then handlerPredict st d.sequence
      else if path = "/api/batch_predict" then handlerBatch st d.sequences
      else ((404, Body.notFound), st)

/-- The Flask app's POST dispatch for the routes modelled here: Flask routes
`/api/predict` and `/api/batch_predict` directly to their view functions
with no api-key check of any kind (app.py lines 177-278 contain no header
read); the request headers are ignored.  (`/api/train` is outside this
embedding: it does file and dataset I/O.) -/
def flaskPost (path : String) (_h : Headers) (d : ReqData)
    (st : ServerState) : (Nat × Body) × ServerState :=
  if path = "/api/predict" then flaskPredict st d.sequence
  else if path = "/api/batch_predict" then flaskBatch st d.sequences
  else ((404, Body.notFound), st)

/-- A concrete classifier satisfying the spec's contract, for witnesses. -/
def constClassifier : Classifier where
  predict := fun _ => 1
  predict_proba := fun _ => (0, 1)
  predict01 := fun _ => Or.inr rfl
  proba_nonneg := fun _ => by constructor <;> norm_num
  proba_sum := fun _ => by norm_num

/-- A concrete vectorizer with a one-token vocabulary, for witnesses. -/
def atgVec : Vectorizer := ⟨["atg"]⟩

/-- A loaded-model server state, for witnesses and counterexamples. -/
def loadedState : ServerState := ⟨some constClassifier, some atgVec, true⟩

/-- The fresh-process state before any model is loaded. -/
def untrainedState : ServerState := ⟨none, none, false⟩

/-- A request with no api-key material at all. -/
def noKeyHeaders : Headers := ⟨none, none, none⟩

/-- The `(status, body)` a predict route computes once the model is loaded
(the success path shared verbatim by app.py lines 188-224 and api/index.py
lines 155-199); stated separately to factor proofs. -/
def predCore (m : Classifier) (v : Vectorizer) (raw : String) : Nat × Body :=
  let sequence := pyUpper (pyStrip raw)
  if sequence = "" then (400, Body.err "Sequence is required")
  else if validDNA sequence then
    let X := v.transform (get_kmers sequence 3)
    (200, Body.predOk sequence (m.predict X) (labelOf (m.predict X))
      (pyMax (m.predict_proba X).1 (m.predict_proba X).2)
      (m.predict_proba X).1 (m.predict_proba X).2)
  else (400, Body.err "Invalid DNA sequence. Only A, T, G, C are allowed.")

/-- The `(status, body)` a batch route computes once the model is loaded
(shared verbatim by app.py lines 243-272 and api/index.py lines 223-257). -/
def batchCore (m : Classifier) (v : Vectorizer) (sequences : List String) :
    Nat × Body :=
  if sequences.isEmpty then (400, Body.err "Sequences array is required")
  else (200, Body.batchOk (sequences.map (batchItem m v))
    (sequences.map (batchItem m v)).length)

theorem flaskPredict_loaded (m : Classifier) (v : Vectorizer) (b : Option String) :
    flaskPredict ⟨some m, some v, true⟩ b
      = (predCore m v (b.getD ""), ⟨some m, some v, true⟩) := by
  simp only [flaskPredict, predCore]
  split_ifs <;> rfl

theorem handlerPredict_loaded (m : Classifier) (v : Vectorizer) (b : Option String) :
    handlerPredict ⟨some m, some v, true⟩ b
      = (predCore m v (b.getD ""), ⟨some m, some v, true⟩) := by
  simp only [handlerPredict, predCore]
  split_ifs <;> rfl

theorem flaskBatch_loaded (m : Classifier) (v : Vectorizer) (bs : Option (List String)) :
    flaskBatch ⟨some m, some v, true⟩ bs
      = (batchCore m v (bs.getD []), ⟨some m, some v, true⟩) := by
  simp only [flaskBatch, batchCore]
  split_ifs <;> rfl

theorem handlerBatch_loaded (m : Classifier) (v : Vectorizer) (bs : Option (List String)) :
    handlerBatch ⟨some m, some v, true⟩ bs
      = (batchCore m v (bs.getD []), ⟨some m, some v, true⟩) := by
  simp only [handlerBatch, batchCore]
  split_ifs <;> rfl

theorem flaskPredict_not_loaded (st : ServerState) (b : Option String)
    (h : st.is_trained = false ∨ st.model = none ∨ st.vectorizer = none) :
    flaskPredict st b
      = ((400, Body.err "Model not trained. Please train the model first."), st) := by
  rcases st with ⟨mo, vo, tr⟩
  cases mo <;> cases vo <;> cases tr <;> simp_all [flaskPredict]

theorem handlerPredict_not_loaded (st : ServerState) (b : Option String)
    (h : st.is_trained = false ∨ st.model = none ∨ st.vectorizer = none) :
    handlerPredict st b
      = ((500, Body.err "Model not loaded. Please contact administrator."), st) := by
  rcases st with ⟨mo, vo, tr⟩
  cases mo <;> cases vo <;> cases tr <;> simp_all [handlerPredict]

theorem flaskBatch_not_loaded (st : ServerState) (bs : Option (List String))
    (h : st.is_trained = false ∨ st.model = none ∨ st.vectorizer = none) :
    flaskBatch st bs
      = ((400, Body.err "Model not trained. Please train the model first."), st) := by
  rcases st with ⟨mo, vo, tr⟩
  cases mo <;> cases vo <;> cases tr <;> simp_all [flaskBatch]

theorem handlerBatch_not_loaded (st : ServerState) (bs : Option (List String))
    (h : st.is_trained = false ∨ st.model = none ∨ st.vectorizer = none) :
    handlerBatch st bs
      = ((500, Body.err "Model not loaded. Please contact administrator."), st) := by
  rcases st with ⟨mo, vo, tr⟩
  cases mo <;> cases vo <;> cases tr <;> simp_all [handlerBatch]

/-- Python's two-element `max` agrees with the order-theoretic `max` on ℚ. -/
theorem pyMax_eq_max (a b : ℚ) : pyMax a b = max a b := by
  unfold pyMax
  rcases lt_trichotomy a b with h | h | h
  · rw [if_pos h, max_eq_right h.le]
  · subst h
    simp
  · rw [if_neg (not_lt.mpr h.le), max_eq_left h.le]

/-- Witness for C1 at the concrete sequence "ATGCA" (length 5, 3 tokens). -/
theorem c1_get_kmers_shape_witness :
    3 ≤ ("ATGCA" : String).length
    ∧ (kmerList "ATGCA" 3).length = ("ATGCA" : String).length - 2 :=
  ⟨by decide, (c1_get_kmers_shape "ATGCA" (by decide)).1⟩

/-- C2: whenever a single-predict route (either front end) answers 200 with a
prediction body, the reported confidence is the maximum of the two reported
class probabilities, and those probabilities sum to 1 (exactly, in ℚ). -/
theorem c2_confidence_max_probs_sum_one (st : ServerState) (b : Option String)
    (sq : String) (pr : Nat) (lab : String) (conf pN pC : ℚ) :
    ((flaskPredict st b).1 = (200, Body.predOk sq pr lab conf pN pC) →
      conf = max pN pC ∧ pN + pC = 1)
    ∧ ((handlerPredict st b).1 = (200, Body.predOk sq pr lab conf pN pC) →
      conf = max pN pC ∧ pN + pC = 1) := by
  have core : ∀ (m : Classifier) (v : Vectorizer) (raw : String),
      predCore m v raw = (200, Body.predOk sq pr lab conf pN pC) →
      conf = max pN pC ∧ pN + pC = 1 := by
    intro m v raw h
    simp only [predCore] at h
    split_ifs at h with h1 h2
    · exact absurd h (by simp)
    · rw [Prod.mk.injEq] at h
      obtain ⟨-, hbody⟩ := h
      rw [Body.predOk.injEq] at hbody
      obtain ⟨-, -, -, hconf, hpN, hpC⟩ := hbody
      subst hpN
      subst hpC
      refine ⟨?_, m.proba_sum _⟩
      rw [← hconf, pyMax_eq_max]
    · exact absurd h (by simp)
  constructor <;> intro h
  · rcases st with ⟨mo, vo, tr⟩
    rcases mo with - | m
    · rw [flaskPredict_not_loaded _ _ (by simp)] at h
      exact absurd h (by simp)
    rcases vo with - | v
    · rw [flaskPredict_not_loaded _ _ (by simp)] at h
      exact absurd h (by simp)
    rcases tr with - | -
    · rw [flaskPredict_not_loaded _ _ (by simp)] at h
      exact absurd h (by simp)
    · rw [flaskPredict_loaded] at h
      exact core m v _ h
  · rcases st with ⟨mo, vo, tr⟩
    rcases mo with - | m
    · rw [handlerPredict_not_loaded _ _ (by simp)] at h
      exact absurd h (by simp)
    rcases vo with - | v
    · rw [handlerPredict_not_loaded _ _ (by simp)] at h
      exact absurd h (by simp)
    rcases tr with - | -
    · rw [handlerPredict_not_loaded _ _ (by simp)] at h
      exact absurd h (by simp)
    · rw [handlerPredict_loaded] at h
      exact core m v _ h

/-- Witness for C2: the hypothesis of its first implication holds at a
concrete loaded model and the sequence "ATGC". -/
theorem c2_confidence_max_probs_sum_one_witness :
    (flaskPredict loadedState (some "ATGC")).1
      = (200, Body.predOk "ATGC" 1 "Coding" 1 0 1)
    ∧ ((1 : ℚ) = max 0 1 ∧ (0 : ℚ) + 1 = 1) :=
  ⟨by decide,
    (c2_confidence_max_probs_sum_one loadedState (some "ATGC")
      "ATGC" 1 "Coding" 1 0 1).1 (by decide)⟩

/-- C3: with a model loaded, a single-predict request whose sequence is
empty after strip/upper, or contains a character outside {A,T,G,C}, gets a
400 with `success: false` (an error body) on both front ends; the
invalid-character case carries the exact message
"Invalid DNA sequence. Only A, T, G, C are allowed."; and no prediction is
attempted — the response does not depend on the model or the vectorizer. -/
theorem c3_empty_or_invalid_rejected (m : Classifier) (v : Vectorizer)
    (b : Option String) (s : String)
    (hs : s = pyUpper (pyStrip (b.getD "")))
    (hbad : s = "" ∨ validDNA s = false) :
    (flaskPredict ⟨some m, some v, true⟩ b).1.1 = 400
    ∧ (flaskPredict ⟨some m, some v, true⟩ b).1
        = (handlerPredict ⟨some m, some v, true⟩ b).1
    ∧ (s = "" →
        (flaskPredict ⟨some m, some v, true⟩ b).1.2
          = Body.err "Sequence is required")
    ∧ (s ≠ "" →
        (flaskPredict ⟨some m, some v, true⟩ b).1.2
          = Body.err "Invalid DNA sequence. Only A, T, G, C are allowed.")
    ∧ (∀ (m' : Classifier) (v' : Vectorizer),
        (flaskPredict ⟨some m', some v', true⟩ b).1
          = (flaskPredict ⟨some m, some v, true⟩ b).1) := by
  have hcore : ∀ (m' : Classifier) (v' : Vectorizer),
      predCore m' v' (b.getD "")
        = (if s = "" then (400, Body.err "Sequence is required")
           else (400, Body.err "Invalid DNA sequence. Only A, T, G, C are allowed.")) := by
    intro m' v'
    simp only [predCore, ← hs]
    rcases hbad with hbad | hbad
    · rw [if_pos hbad, if_pos hbad]
    · rcases eq_or_ne s "" with he | he
      · rw [if_pos he, if_pos he]
      · rw [if_neg he, if_neg he, if_neg (by simp [hbad])]
  refine ⟨?_, ?_, ?_, ?_, ?_⟩
  · rw [flaskPredict_loaded]
    show (predCore m v (b.getD "")).1 = 400
    rw [hcore m v]
    split_ifs <;> rfl
  · rw [flaskPredict_loaded, handlerPredict_loaded]
  · intro he
    rw [flaskPredict_loaded]
    show (predCore m v (b.getD "")).2 = Body.err "Sequence is required"
    rw [hcore m v, if_pos he]
  · intro he
    rw [flaskPredict_loaded]
    show (predCore m v (b.getD "")).2
      = Body.err "Invalid DNA sequence. Only A, T, G, C are allowed."
    rw [hcore m v, if_neg he]
  · intro m' v'
    rw [flaskPredict_loaded, flaskPredict_loaded]
    show predCore m' v' (b.getD "") = predCore m v (b.getD "")
    rw [hcore m v, hcore m' v']

/-- Witness for C3 at the concrete invalid sequence "AXGC". -/
theorem c3_empty_or_invalid_rejected_witness :
    ("AXGC" = pyUpper (pyStrip ((some "AXGC").getD ""))
      ∧ (("AXGC" : String) = "" ∨ validDNA "AXGC" = false))
    ∧ (flaskPredict loadedState (some "AXGC")).1.1 = 400 :=
  ⟨⟨by decide, Or.inr (by decide)⟩,
    (c3_empty_or_invalid_rejected constClassifier atgVec (some "AXGC") "AXGC"
      (by decide) (Or.inr (by decide))).1⟩

/-- Counterexample to C4 as stated: on the Flask front end, a predict
request in the fresh untrained state gets HTTP status 400, not the claimed
500 (app.py lines 182-186 return 400). -/
theorem c4_counterexample :
    (flaskPredict untrainedState (some "ATGC")).1.1 = 400
    ∧ ¬ (flaskPredict untrainedState (some "ATGC")).1.1 = 500 :=
  ⟨by decide, by decide⟩

/-- C4 as amended: with no model loaded (model or vectorizer absent, or
`is_trained` false), single predict fails before touching the sequence — the
Flask server with 400 and "Model not trained. Please train the model
first.", the serverless handler with 500 and "Model not loaded. Please
contact administrator." — and no prediction is attempted: the response does
not depend on the request body. -/
theorem c4_model_absent (st : ServerState) (b : Option String)
    (h : st.is_trained = false ∨ st.model = none ∨ st.vectorizer = none) :
    (flaskPredict st b).1
      = (400, Body.err "Model not trained. Please train the model first.")
    ∧ (handlerPredict st b).1
      = (500, Body.err "Model not loaded. Please contact administrator.")
    ∧ (∀ b', (flaskPredict st b').1 = (flaskPredict st b).1
        ∧ (handlerPredict st b').1 = (handlerPredict st b).1) := by
  refine ⟨?_, ?_, ?_⟩
  · rw [flaskPredict_not_loaded st b h]
  · rw [handlerPredict_not_loaded st b h]
  · intro b'
    rw [flaskPredict_not_loaded st b h, flaskPredict_not_loaded st b' h,
      handlerPredict_not_loaded st b h, handlerPredict_not_loaded st b' h]
    exact ⟨rfl, rfl⟩

/-- Witness for the amended C4 at the fresh untrained state. -/
theorem c4_model_absent_witness :
    (untrainedState.is_trained = false ∨ untrainedState.model = none
      ∨ untrainedState.vectorizer = none)
    ∧ (flaskPredict untrainedState (some "ATGC")).1
      = (400, Body.err "Model not trained. Please train the model first.") :=
  ⟨Or.inl rfl, (c4_model_absent untrainedState (some "ATGC") (Or.inl rfl)).1⟩

/-- C5: for every loaded model and non-empty list of input sequences, both
batch_predict implementations answer 200 with one result per input sequence,
in input order (the result list is the input list mapped through the
per-item loop body), and the `count` field equals the number of inputs. -/
theorem c5_batch_count (m : Classifier) (v : Vectorizer) (ss : List String)
    (hne : ss ≠ []) :
    (flaskBatch ⟨some m, some v, true⟩ (some ss)).1
      = (200, Body.batchOk (ss.map (batchItem m v)) (ss.map (batchItem m v)).length)
    ∧ (handlerBatch ⟨some m, some v, true⟩ (some ss)).1
      = (200, Body.batchOk (ss.map (batchItem m v)) (ss.map (batchItem m v)).length)
    ∧ (ss.map (batchItem m v)).length = ss.length := by
  have hcore : batchCore m v ss
      = (200, Body.batchOk (ss.map (batchItem m v)) (ss.map (batchItem m v)).length) := by
    unfold batchCore
    rw [if_neg (by simpa using hne)]
  refine ⟨?_, ?_, List.length_map _ _⟩
  · rw [flaskBatch_loaded]
    show batchCore m v ss
      = (200, Body.batchOk (ss.map (batchItem m v)) (ss.map (batchItem m v)).length)
    exact hcore
  · rw [handlerBatch_loaded]
    show batchCore m v ss
      = (200, Body.batchOk (ss.map (batchItem m v)) (ss.map (batchItem m v)).length)
    exact hcore

/-- Witness for C5 at the concrete two-element batch ["ATGC", "AT"]. -/
theorem c5_batch_count_witness :
    (["ATGC", "AT"] : List String) ≠ []
    ∧ ((["ATGC", "AT"] : List String).map (batchItem constClassifier atgVec)).length
      = (["ATGC", "AT"] : List String).length :=
  ⟨by decide,
    (c5_batch_count constClassifier atgVec ["ATGC", "AT"] (by decide)).2.2⟩

/-- C6: batch_predict performs no per-item alphabet validation.  If some
input item is invalid for single predict (characters outside {A,T,G,C}),
the batch response is still a 200 whose results are the per-item loop body
mapped over all inputs; in particular the invalid item contributes the
entry obtained by stripping, uppercasing, tokenizing and predicting it, and
the single-predict 400 invalid-sequence error does not occur. -/
theorem c6_batch_no_item_validation (m : Classifier) (v : Vectorizer)
    (ss : List String) (s : String) (hmem : s ∈ ss)
    (hbad : validDNA (pyUpper (pyStrip s)) = false) :
    (flaskBatch ⟨some m, some v, true⟩ (some ss)).1
      = (200, Body.batchOk (ss.map (batchItem m v)) (ss.map (batchItem m v)).length)
    ∧ batchItem m v s ∈ (ss.map (batchItem m v))
    ∧ (flaskBatch ⟨some m, some v, true⟩ (some ss)).1.2
        ≠ Body.err "Invalid DNA sequence. Only A, T, G, C are allowed."
    ∧ (handlerBatch ⟨some m, some v, true⟩ (some ss)).1
      = (flaskBatch ⟨some m, some v, true⟩ (some ss)).1 := by
  have hne : ss ≠ [] := by
    intro hnil
    rw [hnil] at hmem
    exact absurd hmem (List.not_mem_nil s)
  have hcore : batchCore m v ss
      = (200, Body.batchOk (ss.map (batchItem m v)) (ss.map (batchItem m v)).length) := by
    unfold batchCore
    rw [if_neg (by simpa using hne)]
  have hflask : (flaskBatch ⟨some m, some v, true⟩ (some ss)).1
      = (200, Body.batchOk (ss.map (batchItem m v)) (ss.map (batchItem m v)).length) := by
    rw [flaskBatch_loaded]
    exact hcore
  refine ⟨hflask, List.mem_map_of_mem _ hmem, ?_, ?_⟩
  · have : (flaskBatch ⟨some m, some v, true⟩ (some ss)).1.2
        = Body.batchOk (ss.map (batchItem m v)) (ss.map (batchItem m v)).length := by
      rw [hflask]
    rw [this]
    intro hcontra
    exact absurd hcontra (by simp)
  · rw [handlerBatch_loaded, flaskBatch_loaded]

/-- Witness for C6 at the batch ["ATGC", "AX!"] whose second item is
invalid for single predict. -/
theorem c6_batch_no_item_validation_witness :
    (("AX!" : String) ∈ (["ATGC", "AX!"] : List String)
      ∧ validDNA (pyUpper (pyStrip "AX!")) = false)
    ∧ batchItem constClassifier atgVec "AX!"
        ∈ ((["ATGC", "AX!"] : List String).map (batchItem constClassifier atgVec)) :=
  ⟨⟨by decide, by decide⟩,
    (c6_batch_no_item_validation constClassifier atgVec ["ATGC", "AX!"] "AX!"
      (by decide) (by decide)).2.1⟩

theorem handlerPost_badkey (apiKey path : String) (h : Headers) (d : ReqData)
    (st : ServerState) (e : Nat × Body) (hne : path ≠ "/api/health")
    (he : check_api_key apiKey h = some e) :
    handlerPost apiKey path h d st = (e, st) := by
  unfold handlerPost
  rw [if_neg hne, he]

/-- Counterexample to C7 as stated: the Flask front end processes a predict
request that carries no API key at all — the response is a 200 prediction,
not a 401 (app.py lines 177-230 never read an auth header). -/
theorem c7_counterexample :
    (flaskPost "/api/predict" noKeyHeaders ⟨some "ATGC", none⟩ loadedState).1.1 = 200
    ∧ ¬ (flaskPost "/api/predict" noKeyHeaders ⟨some "ATGC", none⟩ loadedState).1.1 = 401 :=
  ⟨by decide, by decide⟩

/-- C7 as amended: only the serverless handler enforces the shared-secret
key.  There, any POST to a non-health path (predict, batch_predict, or the
train path, which that front end does not even route) with a missing or
mismatched key gets a 401 with the auth error message, the state unchanged
and the body unprocessed (the response does not depend on it).  The Flask
server performs no API-key check: its responses are identical for all
header values. -/
theorem c7_auth_serverless_only (apiKey : String) (h : Headers) (d : ReqData)
    (st : ServerState) (path : String)
    (hpath : path = "/api/predict" ∨ path = "/api/batch_predict" ∨ path = "/api/train")
    (hkey : extractApiKey h = "" ∨ extractApiKey h ≠ apiKey) :
    (handlerPost apiKey path h d st).1
      = (401, Body.err "Invalid or missing API key. Please provide X-API-Key header or Bearer token.")
    ∧ (handlerPost apiKey path h d st).2 = st
    ∧ (∀ d' : ReqData, handlerPost apiKey path h d' st = handlerPost apiKey path h d st)
    ∧ (∀ h1 h2 : Headers, flaskPost path h1 d st = flaskPost path h2 d st) := by
  have hauth : check_api_key apiKey h
      = some (401, Body.err "Invalid or missing API key. Please provide X-API-Key header or Bearer token.") := by
    simp only [check_api_key]
    rw [if_pos hkey]
  have hne : path ≠ "/api/health" := by
    rcases hpath with rfl | rfl | rfl <;> decide
  have hmain := handlerPost_badkey apiKey path h d st _ hne hauth
  refine ⟨by rw [hmain], by rw [hmain], ?_, fun h1 h2 => rfl⟩
  intro d'
  rw [hmain, handlerPost_badkey apiKey path h d' st _ hne hauth]

/-- Witness for the amended C7: a predict POST with no key material. -/
theorem c7_auth_serverless_only_witness :
    (("/api/predict" : String) = "/api/predict" ∨ ("/api/predict" : String) = "/api/batch_predict"
      ∨ ("/api/predict" : String) = "/api/train")
    ∧ (extractApiKey noKeyHeaders = "" ∨ extractApiKey noKeyHeaders ≠ "secret")
    ∧ (handlerPost "secret" "/api/predict" noKeyHeaders ⟨some "ATGC", none⟩ loadedState).1
      = (401, Body.err "Invalid or missing API key. Please provide X-API-Key header or Bearer token.") :=
  ⟨Or.inl rfl, Or.inl (by decide),
    (c7_auth_serverless_only "secret" noKeyHeaders ⟨some "ATGC", none⟩ loadedState
      "/api/predict" (Or.inl rfl) (Or.inl (by decide))).1⟩

/-- Counterexample to C8 as stated: in the same no-model state, the same
predict request gets status 400 from the Flask front end but 500 from the
serverless one, so the two front ends are not interchangeable. -/
theorem c8_counterexample :
    (flaskPredict untrainedState (some "ATGC")).1.1 = 400
    ∧ (handlerPredict untrainedState (some "ATGC")).1.1 = 500
    ∧ ¬ (flaskPredict untrainedState (some "ATGC")).1.1
        = (handlerPredict untrainedState (some "ATGC")).1.1 :=
  ⟨by decide, by decide, by decide⟩

/-- C8 as amended: the two front ends agree only once a model is loaded —
then predict and batch_predict return identical status and body for every
request, and the POST health bodies coincide; in the no-model state their
predict and batch responses differ (Flask 400 "Model not trained. Please
train the model first." versus serverless 500 "Model not loaded. Please
contact administrator."). -/
theorem c8_loaded_interchangeable (m : Classifier) (v : Vectorizer)
    (b : Option String) (ss : Option (List String)) (st : ServerState) :
    flaskPredict ⟨some m, some v, true⟩ b = handlerPredict ⟨some m, some v, true⟩ b
    ∧ flaskBatch ⟨some m, some v, true⟩ ss = handlerBatch ⟨some m, some v, true⟩ ss
    ∧ flaskHealth st = handlerHealthPost st := by
  refine ⟨?_, ?_, rfl⟩
  · rw [flaskPredict_loaded, handlerPredict_loaded]
  · rw [flaskBatch_loaded, handlerBatch_loaded]

theorem flaskPredict_state (st : ServerState) (b : Option String) :
    (flaskPredict st b).2 = st := by
  rcases st with ⟨mo, vo, tr⟩
  cases mo <;> cases vo <;> cases tr <;> simp only [flaskPredict] <;> split_ifs <;> rfl

theorem handlerPredict_state (st : ServerState) (b : Option String) :
    (handlerPredict st b).2 = st := by
  rcases st with ⟨mo, vo, tr⟩
  cases mo <;> cases vo <;> cases tr <;> simp only [handlerPredict] <;> split_ifs <;> rfl

theorem flaskBatch_state (st : ServerState) (ss : Option (List String)) :
    (flaskBatch st ss).2 = st := by
  rcases st with ⟨mo, vo, tr⟩
  cases mo <;> cases vo <;> cases tr <;> simp only [flaskBatch] <;> split_ifs <;> rfl

theorem handlerBatch_state (st : ServerState) (ss : Option (List String)) :
    (handlerBatch st ss).2 = st := by
  rcases st with ⟨mo, vo, tr⟩
  cases mo <;> cases vo <;> cases tr <;> simp only [handlerBatch] <;> split_ifs <;> rfl

/-- C9: predict and batch_predict (and the health and dispatch paths around
them) never change the global model, vectorizer or `is_trained` flag: the
post-state equals the pre-state for every request, on both front ends.  (In
the source the handlers declare the globals but never assign them; only
train and the initial `load_model` assign.) -/
theorem c9_model_frozen_for_inference (st : ServerState) (b : Option String)
    (ss : Option (List String)) (apiKey path : String) (h : Headers) (d : ReqData) :
    (flaskPredict st b).2 = st
    ∧ (handlerPredict st b).2 = st
    ∧ (flaskBatch st ss).2 = st
    ∧ (handlerBatch st ss).2 = st
    ∧ (flaskHealth st).2 = st
    ∧ (handlerHealthGet st).2 = st
    ∧ (handlerHealthPost st).2 = st
    ∧ (flaskPost path h d st).2 = st
    ∧ (handlerPost apiKey path h d st).2 = st := by
  refine ⟨flaskPredict_state st b, handlerPredict_state st b,
    flaskBatch_state st ss, handlerBatch_state st ss, rfl, rfl, rfl, ?_, ?_⟩
  · unfold flaskPost
    split_ifs
    · exact flaskPredict_state st d.sequence
    · exact flaskBatch_state st d.sequences
    · rfl
  · unfold handlerPost
    split
    · rfl
    · cases hck : check_api_key apiKey h with
      | some e => rfl
      | none =>
        dsimp only
        split_ifs
        · exact handlerPredict_state st d.sequence
        · exact handlerBatch_state st d.sequences
        · rfl

/-- C10: a sequence of length 1 or 2 over {A,T,G,C} passes validation; its
k-mer string is empty (zero tokens), the empty token string vectorizes to
the all-zero count vector, and single predict still answers 200 with a
success body built from the zero vector's prediction. -/
theorem c10_short_sequence_succeeds (m : Classifier) (v : Vectorizer)
    (b : Option String) (t : String)
    (ht : t = pyUpper (pyStrip (b.getD "")))
    (hne : t ≠ "") (hlen : t.length ≤ 2) (hval : validDNA t = true) :
    get_kmers t 3 = ""
    ∧ v.transform (get_kmers t 3) = List.replicate v.vocab.length 0
    ∧ (flaskPredict ⟨some m, some v, true⟩ b).1
      = (200, Body.predOk t (m.predict (List.replicate v.vocab.length 0))
          (labelOf (m.predict (List.replicate v.vocab.length 0)))
          (pyMax (m.predict_proba (List.replicate v.vocab.length 0)).1
            (m.predict_proba (List.replicate v.vocab.length 0)).2)
          (m.predict_proba (List.replicate v.vocab.length 0)).1
          (m.predict_proba (List.replicate v.vocab.length 0)).2) := by
  have hkl : kmerList t 3 = [] := by
    unfold kmerList
    have hz : Int.toNat (Int.ofNat t.length - Int.ofNat 3 + 1) = 0 := by
      simp only [Int.ofNat_eq_coe]
      omega
    rw [hz]
    rfl
  have hkm : get_kmers t 3 = "" := by
    unfold get_kmers
    rw [hkl]
    rfl
  have hempty : cvTokenize "" = [] := rfl
  have htr : v.transform "" = List.replicate v.vocab.length 0 := by
    unfold Vectorizer.transform
    rw [hempty]
    simp only [List.count_nil]
    exact List.map_const' _ _
  refine ⟨hkm, by rw [hkm, htr], ?_⟩
  rw [flaskPredict_loaded]
  show predCore m v (b.getD "")
    = (200, Body.predOk t (m.predict (List.replicate v.vocab.length 0))
        (labelOf (m.predict (List.replicate v.vocab.length 0)))
        (pyMax (m.predict_proba (List.replicate v.vocab.length 0)).1
          (m.predict_proba (List.replicate v.vocab.length 0)).2)
        (m.predict_proba (List.replicate v.vocab.length 0)).1
        (m.predict_proba (List.replicate v.vocab.length 0)).2)
  simp only [predCore, ← ht]
  rw [if_neg hne, if_pos hval, hkm, htr]

/-- Witness for C10 at the concrete length-2 sequence "AT". -/
theorem c10_short_sequence_succeeds_witness :
    (("AT" : String) = pyUpper (pyStrip ((some "AT").getD ""))
      ∧ ("AT" : String) ≠ "" ∧ ("AT" : String).length ≤ 2 ∧ validDNA "AT" = true)
    ∧ get_kmers "AT" 3 = "" :=
  ⟨⟨by decide, by decide, by decide, by decide⟩,
    (c10_short_sequence_succeeds constClassifier atgVec (some "AT") "AT"
      (by decide) (by decide) (by decide) (by decide)).1⟩
